import Mathlib

/-!
Verification of the QuickShop analytics dashboard pipeline (src/app.py).

The development shallowly embeds the filter-aggregate-export pipeline of the
Streamlit app: a pandas DataFrame of business records becomes a `List Record`,
the boolean-mask filter becomes `List.filter`, the pandas aggregations become
sums over lists, and the CSV serializations become lists of cell rows.
Machine floats are modelled by exact rationals, except where pandas division
by zero produces IEEE special values, which are modelled by `PdFloat`.
-/

namespace QuickShop

/-- One row of the dataset (src/app.py required columns, line 91):
`Date` is modelled as a calendar day number (days since 1970-01-01; the code
compares `df[Date].dt.date`, i.e. dates with any time component stripped),
`Visitors` and `Orders` are integers, `Revenue` is numeric (exact rational
here), `Segment` is a free-form label. -/
structure Record where
  date : ℤ
  visitors : ℤ
  orders : ℤ
  revenue : ℚ
  segment : String
deriving DecidableEq, Repr, Inhabited

/-- The user-chosen filter state (src/app.py lines 120-146): a start date, an
end date, and the list of selected segments from the multiselect. -/
structure FilterSpec where
  start_date : ℤ
  end_date : ℤ
  segments : List String
deriving DecidableEq, Repr

/-- The per-record inclusion predicate of the boolean mask at src/app.py
lines 149-153: `start_date ≤ Date ≤ end_date` (both ends inclusive) and
`Segment ∈ segments`. -/
def matches_filter (F : FilterSpec) (r : Record) : Prop :=
  F.start_date ≤ r.date ∧ r.date ≤ F.end_date ∧ r.segment ∈ F.segments

instance (F : FilterSpec) (r : Record) : Decidable (matches_filter F r) := by
  unfold matches_filter
  infer_instance

/-- The Filter Engine (src/app.py lines 149-153): pandas boolean-mask row
selection `df[(df.Date.dt.date >= start) & (df.Date.dt.date <= end) &
df.Segment.isin(segments)]`, which keeps exactly the mask-true rows in their
original order. -/
def filtered_df (df : List Record) (F : FilterSpec) : List Record :=
  df.filter (fun r => decide (matches_filter F r))

/-- KPI aggregate `filtered_df[Visitors].sum()` (src/app.py line 162). -/
def total_visitors (v : List Record) : ℤ :=
  (v.map Record.visitors).sum

/-- KPI aggregate `filtered_df[Orders].sum()` (src/app.py line 171). -/
def total_orders (v : List Record) : ℤ :=
  (v.map Record.orders).sum

/-- KPI aggregate `filtered_df[Revenue].sum()` (src/app.py line 180). -/
def total_revenue (v : List Record) : ℚ :=
  (v.map Record.revenue).sum

/-- KPI `conversion_rate` (src/app.py line 189):
`(total_orders / total_visitors * 100) if total_visitors > 0 else 0`. -/
def conversion_rate (v : List Record) : ℚ :=
  if 0 < total_visitors v then (total_orders v : ℚ) / (total_visitors v : ℚ) * 100 else 0

/-- KPI `avg_order_value` (src/app.py line 190):
`(total_revenue / total_orders) if total_orders > 0 else 0`. -/
def avg_order_value (v : List Record) : ℚ :=
  if 0 < total_orders v then total_revenue v / (total_orders v : ℚ) else 0

/-- The distinct segment labels of a view, the group keys of
`filtered_df.groupby('Segment')` (src/app.py line 315). pandas emits group
keys in sorted order; keys are taken here in first-occurrence order, a
permutation of that, since every property proved below is invariant under
the order of the group keys. -/
def segment_keys (v : List Record) : List String :=
  (v.map Record.segment).dedup

/-- Grouped sum `groupby('Segment')['Visitors'].sum()` for one key
(src/app.py line 316). -/
def seg_visitors (v : List Record) (k : String) : ℤ :=
  ((v.filter (fun r => decide (r.segment = k))).map Record.visitors).sum

/-- Grouped sum `groupby('Segment')['Orders'].sum()` for one key
(src/app.py line 317). -/
def seg_orders (v : List Record) (k : String) : ℤ :=
  ((v.filter (fun r => decide (r.segment = k))).map Record.orders).sum

/-- Grouped sum `groupby('Segment')['Revenue'].sum()` for one key
(src/app.py line 318). -/
def seg_revenue (v : List Record) (k : String) : ℚ :=
  ((v.filter (fun r => decide (r.segment = k))).map Record.revenue).sum

/-- A pandas float64 value: either a finite value (modelled exactly as a
rational) or one of the IEEE-754 special values that pandas produces instead
of raising on division by zero. -/
inductive PdFloat where
  | finite : ℚ → PdFloat
  | inf : PdFloat
  | neginf : PdFloat
  | nan : PdFloat
deriving DecidableEq, Repr

/-- Division of two integer pandas Series entries as float64: division by
zero yields `inf`, `-inf` or `NaN` by the sign of the numerator (pandas
emits a warning but no error and no zero-guard). -/
def pd_div_int (a b : ℤ) : PdFloat :=
  if b = 0 then (if 0 < a then .inf else if a < 0 then .neginf else .nan)
  else .finite ((a : ℚ) / (b : ℚ))

/-- Multiplication of a pandas float64 by the positive scalar 100, as in
`... * 100` (src/app.py line 320): special values are preserved. -/
def pd_mul100 : PdFloat → PdFloat
  | .finite q => .finite (q * 100)
  | .inf => .inf
  | .neginf => .neginf
  | .nan => .nan

/-- Floor of a rational, computed structurally so that concrete instances
reduce inside the kernel. -/
def qfloor (q : ℚ) : ℤ :=
  q.num.fdiv (q.den : ℤ)

/-- Round a rational to the nearest integer, ties to even — the rounding
mode of numpy/pandas `round`. -/
def round_half_even (q : ℚ) : ℤ :=
  if (q : ℚ) - (qfloor q : ℚ) < 1 / 2 then qfloor q
  else if (1 : ℚ) / 2 < q - (qfloor q : ℚ) then qfloor q + 1
  else if qfloor q % 2 = 0 then qfloor q else qfloor q + 1

/-- Round a rational to 2 decimal places, ties to even, as `Series.round(2)`
does (src/app.py line 320). -/
def round2 (q : ℚ) : ℚ :=
  (round_half_even (q * 100) : ℚ) / 100

/-- Rounding a pandas float64 to 2 decimal places: finite values are rounded,
the special values are fixed points of `round`. -/
def pd_round2 : PdFloat → PdFloat
  | .finite q => .finite (round2 q)
  | .inf => .inf
  | .neginf => .neginf
  | .nan => .nan

/-- Per-segment `Conversion Rate` column of the segment-analysis export
(src/app.py line 320): `(orders / visitors * 100).round(2)` computed on the
grouped sums, with pandas float64 division (no zero-guard in the source). -/
def segment_conversion_rate (v : List Record) (k : String) : PdFloat :=
  pd_round2 (pd_mul100 (pd_div_int (seg_orders v k) (seg_visitors v k)))

/-- One row of the segment-analysis table `segment_summary`
(src/app.py lines 315-320). -/
structure SegmentRow where
  segment : String
  visitors : ℤ
  orders : ℤ
  revenue : ℚ
  conversion : PdFloat
deriving DecidableEq, Repr

/-- The segment-analysis table (src/app.py lines 315-320): one row per
distinct segment of the view, carrying the grouped sums and the rounded
conversion-rate column. -/
def segment_summary (v : List Record) : List SegmentRow :=
  (segment_keys v).map (fun k =>
    { segment := k
      visitors := seg_visitors v k
      orders := seg_orders v k
      revenue := seg_revenue v k
      conversion := segment_conversion_rate v k })

/-- One cell of a serialized CSV table. Numeric cells keep their exact
values; formatting them as digit strings is presentation, not pipeline
logic, and no claim turns on the digit rendering. -/
inductive CsvCell where
  | int : ℤ → CsvCell
  | rat : ℚ → CsvCell
  | str : String → CsvCell
deriving DecidableEq, Repr

/-- The header row written by `to_csv` for the five dataset columns. -/
def csv_header : List CsvCell :=
  [.str "Date", .str "Visitors", .str "Orders", .str "Revenue", .str "Segment"]

/-- The serialized cells of one record: all five fields, in column order,
with no leading index cell (`index=False`). -/
def record_row (r : Record) : List CsvCell :=
  [.int r.date, .int r.visitors, .int r.orders, .rat r.revenue, .str r.segment]

/-- Serialization `df.to_csv(index=False)` of a view: the header row followed
by one row per record, in the order of the rows of the frame. -/
def to_csv (v : List Record) : List (List CsvCell) :=
  csv_header :: v.map record_row

/-- The raw-data export `csv_data = filtered_df.to_csv(index=False)`
(src/app.py line 282): the filtered view is serialized as-is, without any
re-sorting. -/
def export_raw (v : List Record) : List (List CsvCell) :=
  to_csv v

/-- The row reordering `filtered_df.sort_values('Date', ascending=False)`:
sorting by date, descending. pandas leaves the relative order of equal dates
unspecified (its default sort is not stable); insertion sort is one concrete
correct sort, and no claim depends on the tie order. -/
def sort_values_date_desc (v : List Record) : List Record :=
  List.insertionSort (fun a b => b.date ≤ a.date) v

/-- The on-screen detailed data table (src/app.py lines 268-273):
`st.dataframe(filtered_df.sort_values('Date', ascending=False), ...,
hide_index=True)` — it is this display table, not the CSV export, that the
code sorts by date descending. -/
def detailed_table (v : List Record) : List Record :=
  sort_values_date_desc v

/-- Calendar day number of 2024-01-01, the first date of
`pd.date_range('2024-01-01', periods=30, freq='D')` (src/app.py line 24). -/
def sample_epoch : ℤ := 19723

/-- The sample dataset generator `create_sample_data` (src/app.py
lines 20-30). The source builds five column lists of length 30 and zips them
into a DataFrame; the embedding builds the same content row-wise: for row
index `i`, date `2024-01-01 + i` days, `Visitors = 1500 + i*50 + (i%7)*200`,
`Orders = 150 + i*5 + (i%7)*20`, `Revenue = 15000 + i*500 + (i%7)*2000`, and
`Segment = 'Mobile' if i%2 == 0 else 'Desktop'`. -/
def create_sample_data : List Record :=
  (List.range 30).map (fun (i : ℕ) =>
    { date := sample_epoch + (i : ℤ)
      visitors := 1500 + (i : ℤ) * 50 + ((i % 7 : ℕ) : ℤ) * 200
      orders := 150 + (i : ℤ) * 5 + ((i % 7 : ℕ) : ℤ) * 20
      revenue := ((15000 + (i : ℤ) * 500 + ((i % 7 : ℕ) : ℤ) * 2000 : ℤ) : ℚ)
      segment := if i % 2 = 0 then "Mobile" else "Desktop" })

/-- A parsed upload: the column names of the parsed frame together with its
rows. Uploads may lack required columns, which only `columns` records; the
five canonical fields of `Record` model the data of a frame that has them. -/
structure DataFrame where
  columns : List String
  rows : List Record
deriving DecidableEq, Repr

/-- The Streamlit session state relevant to uploading (src/app.py
lines 11-14): the `data_loaded` flag and the name of the last upload. -/
structure SessionState where
  data_loaded : Bool
  last_upload : Option String
deriving DecidableEq, Repr

/-- Required column list `required_cols` (src/app.py line 91). -/
def required_cols : List String :=
  ["Date", "Visitors", "Orders", "Revenue", "Segment"]

/-- Missing-column computation (src/app.py line 92):
`[col for col in required_cols if col not in df.columns]` — every absent
required column, in required-column order. -/
def missing_cols (columns : List String) : List String :=
  required_cols.filter (fun c => decide (c ∉ columns))

/-- The Schema Validator distilled from src/app.py lines 94-99: a frame
passes iff no required column is missing, and otherwise the error names the
full missing-column list. -/
def validate (df : DataFrame) : Except (List String) Unit :=
  if missing_cols df.columns = [] then .ok () else .error (missing_cols df.columns)

/-- The upload-handling branch (src/app.py lines 78-103) as a state
transition. `parsed` is the outcome of `process_uploaded_data` (lines 33-41):
`Except.error msg` models the caught parse exception, `Except.ok df` a parsed
frame. The source assigns `st.session_state.last_upload = uploaded_file.name`
in the new-name branch before inspecting `error`; on success with all
required columns present it also sets `data_loaded = True` (line 103). -/
def handle_upload (s : SessionState) (name : String) (parsed : Except String DataFrame) :
    Option DataFrame × SessionState :=
  let s1 := if s.last_upload = some name then s else { s with last_upload := some name }
  match parsed with
  | .error _ => (none, s1)
  | .ok df =>
      if missing_cols df.columns = [] then
        (some df, { s1 with data_loaded := true })
      else
        (none, s1)

/-- A three-record dataset with two segments used to instantiate the filter
theorems on concrete data. -/
def filter_demo : List Record :=
  [⟨19723, 100, 10, 1000, "Mobile"⟩, ⟨19724, 200, 30, 3000, "Desktop"⟩,
   ⟨19730, 50, 5, 500, "Mobile"⟩]

/-- The two-record scenario dataset of the specification (rows 2024-01-01
and 2024-01-02). -/
def kpi_demo : List Record :=
  [⟨19723, 100, 10, 1000, "Mobile"⟩, ⟨19724, 200, 30, 3000, "Desktop"⟩]

/-- A single-record dataset used to instantiate the degenerate-filter
theorem on concrete data. -/
def edge_demo : List Record :=
  [⟨19723, 100, 10, 1000, "Mobile"⟩]

/-- A two-record view whose rows are in ascending date order, so that
sorting by date descending visibly reorders it. -/
def export_demo : List Record :=
  [⟨19723, 1, 1, 0, "A"⟩, ⟨19724, 2, 2, 0, "A"⟩]

/-- A view with one segment whose summed visitors are zero (and positive
orders) and one segment with positive visitors. -/
def segment_demo : List Record :=
  [⟨19723, 0, 5, 0, "A"⟩, ⟨19723, 100, 10, 1000, "B"⟩]

lemma sum_map_ite_of_not_mem (ks : List String) (a : String) (c : ℤ) (ha : a ∉ ks) :
    (ks.map (fun k => if k = a then c else 0)).sum = 0 := by
  induction ks with
  | nil => rfl
  | cons k t ih =>
    have hk : k ≠ a := fun h => ha (h ▸ List.mem_cons_self k t)
    have ht : a ∉ t := fun h => ha (List.mem_cons_of_mem k h)
    simp [hk, ih ht]

lemma sum_map_ite_of_mem (ks : List String) (a : String) (c : ℤ)
    (hnd : ks.Nodup) (ha : a ∈ ks) :
    (ks.map (fun k => if k = a then c else 0)).sum = c := by
  induction ks with
  | nil => exact absurd ha (List.not_mem_nil a)
  | cons k t ih =>
    rcases List.mem_cons.1 ha with h | h
    · have ht : a ∉ t := h ▸ (List.nodup_cons.1 hnd).1
      simp [h.symm, sum_map_ite_of_not_mem t a c ht]
    · have hk : k ≠ a := by
        rintro rfl
        exact (List.nodup_cons.1 hnd).1 h
      simp [hk, ih (List.nodup_cons.1 hnd).2 h]

/-- Summing a per-record quantity group-by-group, over a duplicate-free list
of keys covering every segment of the list, gives the plain sum over the
list: pandas grouped sums partition the total. -/
lemma sum_grouped_eq_sum (f : Record → ℤ) (ks : List String) (l : List Record)
    (hnd : ks.Nodup) (hc : ∀ r ∈ l, r.segment ∈ ks) :
    (ks.map (fun k => ((l.filter (fun r => decide (r.segment = k))).map f).sum)).sum
      = (l.map f).sum := by
  induction l with
  | nil => simp
  | cons r t ih =>
    have hstep : ∀ k ∈ ks,
        (((r :: t).filter (fun x => decide (x.segment = k))).map f).sum
          = (if k = r.segment then f r else 0)
            + ((t.filter (fun x => decide (x.segment = k))).map f).sum := by
      intro k hk
      by_cases h : r.segment = k
      · rw [List.filter_cons, if_pos (decide_eq_true h), List.map_cons, List.sum_cons,
          if_pos h.symm]
      · rw [List.filter_cons, if_neg (by simpa using h), if_neg (fun hh => h hh.symm), zero_add]
    rw [List.map_congr_left hstep, List.sum_map_add,
      sum_map_ite_of_mem ks r.segment (f r) hnd (hc r (List.mem_cons_self r t)),
      ih (fun x hx => hc x (List.mem_cons_of_mem r hx))]
    simp

/-- Every row of the sample dataset ties its three metrics by fixed factors
of 10 and has positive visitors; established once by evaluation and reused
by the claim theorems below. -/
lemma sample_rows_fact : ∀ r ∈ create_sample_data,
    r.visitors = 10 * r.orders ∧ r.revenue = ((10 * r.visitors : ℤ) : ℚ) ∧
    r.orders ≤ r.visitors ∧ 0 < r.visitors := by decide

/-- C1: filtering is set-exact and stable. Every record of
`filtered_df df F` satisfies the inclusion predicate; every occurrence of a
record of `df` satisfying the predicate appears in the output with the same
multiplicity (and non-matching records do not appear at all); and the output
is a sublist of `df`, so the relative order of matching records is
preserved. -/
theorem filter_exact_subset_spec (df : List Record) (F : FilterSpec) :
    (∀ r ∈ filtered_df df F, matches_filter F r) ∧
    (∀ r, matches_filter F r → (filtered_df df F).count r = df.count r) ∧
    (∀ r, ¬ matches_filter F r → (filtered_df df F).count r = 0) ∧
    (filtered_df df F).Sublist df := by
  refine ⟨?_, ?_, ?_, List.filter_sublist df⟩
  · intro r hr
    exact of_decide_eq_true (List.mem_filter.1 hr).2
  · intro r h
    exact List.count_filter (decide_eq_true h)
  · intro r h
    rw [List.count_eq_zero]
    intro hr
    exact h (of_decide_eq_true (List.mem_filter.1 hr).2)

/-- Witness for C1 on a concrete dataset, filter and record. -/
theorem filter_exact_subset_witness :
    matches_filter ⟨19723, 19724, ["Mobile", "Desktop"]⟩
      (⟨19723, 100, 10, 1000, "Mobile"⟩ : Record) ∧
    (filtered_df filter_demo ⟨19723, 19724, ["Mobile", "Desktop"]⟩).count
        ⟨19723, 100, 10, 1000, "Mobile"⟩ =
      filter_demo.count ⟨19723, 100, 10, 1000, "Mobile"⟩ ∧
    (filtered_df filter_demo ⟨19723, 19724, ["Mobile", "Desktop"]⟩).Sublist filter_demo :=
  ⟨by decide,
   (filter_exact_subset_spec filter_demo ⟨19723, 19724, ["Mobile", "Desktop"]⟩).2.1 _ (by decide),
   (filter_exact_subset_spec filter_demo ⟨19723, 19724, ["Mobile", "Desktop"]⟩).2.2.2⟩

/-- C2: the scalar KPI ratios are zero-guarded. With positive total
visitors, the conversion rate is `orders / visitors * 100`; with zero total
visitors it is `0`; with positive total orders the average order value is
`revenue / orders`; with zero total orders it is `0`. The functions are
total, so neither zero case raises an error. -/
theorem kpi_zero_guard_spec (v : List Record) :
    (0 < total_visitors v →
      conversion_rate v = (total_orders v : ℚ) / (total_visitors v : ℚ) * 100) ∧
    (total_visitors v = 0 → conversion_rate v = 0) ∧
    (0 < total_orders v →
      avg_order_value v = total_revenue v / (total_orders v : ℚ)) ∧
    (total_orders v = 0 → avg_order_value v = 0) := by
  refine ⟨fun h => ?_, fun h => ?_, fun h => ?_, fun h => ?_⟩
  · rw [conversion_rate, if_pos h]
  · rw [conversion_rate, if_neg (by rw [h]; exact lt_irrefl 0)]
  · rw [avg_order_value, if_pos h]
  · rw [avg_order_value, if_neg (by rw [h]; exact lt_irrefl 0)]

/-- Witness for C2 on the specification's two-record scenario and on the
empty view. -/
theorem kpi_zero_guard_witness :
    (0 < total_visitors kpi_demo ∧
      conversion_rate kpi_demo = (total_orders kpi_demo : ℚ) / (total_visitors kpi_demo : ℚ) * 100) ∧
    (total_visitors ([] : List Record) = 0 ∧ conversion_rate ([] : List Record) = 0) ∧
    (0 < total_orders kpi_demo ∧
      avg_order_value kpi_demo = total_revenue kpi_demo / (total_orders kpi_demo : ℚ)) ∧
    (total_orders ([] : List Record) = 0 ∧ avg_order_value ([] : List Record) = 0) :=
  ⟨⟨by decide, (kpi_zero_guard_spec kpi_demo).1 (by decide)⟩,
   ⟨by decide, (kpi_zero_guard_spec []).2.1 (by decide)⟩,
   ⟨by decide, (kpi_zero_guard_spec kpi_demo).2.2.1 (by decide)⟩,
   ⟨by decide, (kpi_zero_guard_spec []).2.2.2 (by decide)⟩⟩

/-- C3 counterexample: the raw-data CSV export is not sorted by date
descending. On a concrete filtered view whose rows are in ascending date
order, `export_raw` differs from the date-descending serialization that the
claim asserts. -/
theorem export_raw_sorted_counterexample :
    filtered_df export_demo ⟨19723, 19724, ["A"]⟩ = export_demo ∧
    export_raw (filtered_df export_demo ⟨19723, 19724, ["A"]⟩) ≠
      csv_header ::
        (sort_values_date_desc (filtered_df export_demo ⟨19723, 19724, ["A"]⟩)).map record_row := by
  decide

/-- C3 amended: `export_raw` lists every field of every record of the view
with a header row and no index column, in the view's own row order (the
source serializes `filtered_df` without re-sorting); it is the on-screen
detailed table, not the export, that is the date-descending reordering of
the view. -/
theorem export_raw_order_spec (v : List Record) :
    export_raw v = csv_header :: v.map record_row ∧
    (export_raw v).length = v.length + 1 ∧
    (∀ row ∈ export_raw v, row.length = 5) ∧
    (detailed_table v).Perm v ∧
    List.Sorted (fun a b : Record => b.date ≤ a.date) (detailed_table v) := by
  refine ⟨rfl, by simp [export_raw, to_csv], ?_, List.perm_insertionSort _ v, ?_⟩
  · intro row hrow
    rcases List.mem_cons.1 hrow with h | h
    · subst h; rfl
    · obtain ⟨r, hr, rfl⟩ := List.mem_map.1 h
      rfl
  · haveI : IsTotal Record (fun a b : Record => b.date ≤ a.date) :=
      ⟨fun a b => le_total b.date a.date⟩
    haveI : IsTrans Record (fun a b : Record => b.date ≤ a.date) :=
      ⟨fun a b c h1 h2 => le_trans h2 h1⟩
    exact List.sorted_insertionSort _ _

/-- Witness for the amended C3 on a concrete view and row. -/
theorem export_raw_order_witness :
    csv_header ∈ export_raw export_demo ∧ csv_header.length = 5 :=
  ⟨by decide, (export_raw_order_spec export_demo).2.2.1 csv_header (by decide)⟩

/-- C4 counterexample: a segment whose summed visitors are 0 (with positive
summed orders) gets conversion rate `inf` in the segment-analysis table, not
the zero-guarded 0 the claim asserts — the source divides the grouped sums
without a zero-guard and pandas emits an IEEE special value. -/
theorem segment_rate_zero_guard_counterexample :
    "A" ∈ segment_keys segment_demo ∧
    seg_visitors segment_demo "A" = 0 ∧
    segment_conversion_rate segment_demo "A" ≠ PdFloat.finite 0 ∧
    segment_conversion_rate segment_demo "A" = PdFloat.inf := by
  decide

/-- C4 amended: the conversion column of the segment-analysis table is
`segment_conversion_rate` key-by-key; for a segment with nonzero summed
visitors it equals `orders / visitors * 100` rounded (half-even) to 2
decimal places, and for a segment with zero summed visitors it is one of the
non-finite float values `inf`, `-inf`, `NaN` — never an error, but also
never 0. -/
theorem segment_rate_spec (v : List Record) :
    (segment_summary v).map SegmentRow.conversion =
      (segment_keys v).map (segment_conversion_rate v) ∧
    ∀ k ∈ segment_keys v,
      (seg_visitors v k ≠ 0 →
        segment_conversion_rate v k =
          .finite (round2 ((seg_orders v k : ℚ) / (seg_visitors v k : ℚ) * 100))) ∧
      (seg_visitors v k = 0 →
        segment_conversion_rate v k = .inf ∨ segment_conversion_rate v k = .neginf ∨
          segment_conversion_rate v k = .nan) := by
  constructor
  · rw [segment_summary, List.map_map]
    rfl
  · intro k hk
    constructor
    · intro hnz
      simp [segment_conversion_rate, pd_div_int, hnz, pd_mul100, pd_round2]
    · intro hz
      rw [segment_conversion_rate, pd_div_int, if_pos hz]
      split_ifs <;> simp [pd_mul100, pd_round2]

/-- Witness for the amended C4 on a concrete view and segment with nonzero
summed visitors. -/
theorem segment_rate_witness :
    "B" ∈ segment_keys segment_demo ∧ seg_visitors segment_demo "B" ≠ 0 ∧
    segment_conversion_rate segment_demo "B" =
      .finite (round2
        ((seg_orders segment_demo "B" : ℚ) / (seg_visitors segment_demo "B" : ℚ) * 100)) :=
  ⟨by decide, by decide,
   ((segment_rate_spec segment_demo).2 "B" (by decide)).1 (by decide)⟩

/-- C5 counterexample: a failing upload is not free of state mutation. From
a fresh session, handling an upload named `bad.csv` whose parse fails leaves
the session with `last_upload = some "bad.csv"` — the source assigns
`st.session_state.last_upload = uploaded_file.name` before inspecting the
parse error. -/
theorem upload_failure_mutation_counterexample :
    (handle_upload ⟨false, none⟩ "bad.csv" (.error "no columns to parse from file")).2 ≠
      (⟨false, none⟩ : SessionState) ∧
    handle_upload ⟨false, none⟩ "bad.csv" (.error "no columns to parse from file") =
      (none, ⟨false, some "bad.csv"⟩) := by
  decide

/-- C5 amended: on a parse failure no dataset is produced and the
`data_loaded` flag is unchanged, but the session's `last_upload` field is
set to the name of the failing upload. -/
theorem upload_failure_state_spec (s : SessionState) (name msg : String) :
    handle_upload s name (.error msg) =
      (none, { data_loaded := s.data_loaded, last_upload := some name }) := by
  cases s with
  | mk dl lu =>
    by_cases h : lu = some name
    · subst h; simp [handle_upload]
    · simp [handle_upload, h]

/-- C6: validation reports every absent required column. A column is in
`missing_cols` exactly when it is required and absent; a frame with any
missing column fails validation carrying that full list; and the
specification's scenario (header without `Orders`) yields exactly
`["Orders"]`. -/
theorem missing_cols_spec (columns : List String) (rows : List Record) :
    (∀ c, c ∈ missing_cols columns ↔ c ∈ required_cols ∧ c ∉ columns) ∧
    (missing_cols columns ≠ [] →
      validate ⟨columns, rows⟩ = .error (missing_cols columns)) ∧
    missing_cols ["Date", "Visitors", "Revenue", "Segment"] = ["Orders"] := by
  refine ⟨fun c => ?_, fun h => ?_, by decide⟩
  · simp [missing_cols, List.mem_filter]
  · rw [validate, if_neg h]

/-- Witness for C6 on the specification's missing-Orders scenario. -/
theorem missing_cols_witness :
    missing_cols ["Date", "Visitors", "Revenue", "Segment"] ≠ [] ∧
    validate ⟨["Date", "Visitors", "Revenue", "Segment"], []⟩ =
      .error (missing_cols ["Date", "Visitors", "Revenue", "Segment"]) :=
  ⟨by decide, (missing_cols_spec ["Date", "Visitors", "Revenue", "Segment"] []).2.1 (by decide)⟩

/-- C7: degenerate filters produce the empty view, not an error. An empty
segment selection, or an inverted date range (`end_date < start_date`),
makes `filtered_df` empty on every dataset; both are ordinary results of
the total filter function and no validation rejects them. -/
theorem degenerate_filter_empty_spec (df : List Record) (F : FilterSpec) :
    (F.segments = [] → filtered_df df F = []) ∧
    (F.end_date < F.start_date → filtered_df df F = []) := by
  constructor
  · intro h
    refine List.filter_eq_nil_iff.mpr ?_
    intro r hr hm
    obtain ⟨h1, h2, h3⟩ := of_decide_eq_true hm
    rw [h] at h3
    exact (List.not_mem_nil r.segment) h3
  · intro h
    refine List.filter_eq_nil_iff.mpr ?_
    intro r hr hm
    obtain ⟨h1, h2, h3⟩ := of_decide_eq_true hm
    linarith

/-- Witness for C7 on a concrete non-empty dataset: an empty segment
selection, and the specification's inverted range 2024-06-01 to 2024-01-01,
both yield the empty view. -/
theorem degenerate_filter_empty_witness :
    edge_demo ≠ [] ∧
    filtered_df edge_demo ⟨19723, 19724, []⟩ = [] ∧
    (19723 : ℤ) < 19875 ∧
    filtered_df edge_demo ⟨19875, 19723, ["Mobile"]⟩ = [] :=
  ⟨by decide,
   (degenerate_filter_empty_spec edge_demo ⟨19723, 19724, []⟩).1 rfl,
   by decide,
   (degenerate_filter_empty_spec edge_demo ⟨19875, 19723, ["Mobile"]⟩).2 (by decide)⟩

/-- C8: the sample dataset is deterministic (a pure value, equal to itself
on every call) and its content is exactly 30 rows whose date at index `i`
is the fixed epoch 2024-01-01 plus `i` days (30 consecutive days), whose
visitors, orders and revenue follow `base + i*step + (i mod 7)*amplitude`
with per-column constants (1500/50/200, 150/5/20, 15000/500/2000), and whose
segment alternates between `Mobile` (even rows) and `Desktop` (odd rows). -/
theorem create_sample_data_spec :
    create_sample_data = create_sample_data ∧
    create_sample_data.length = 30 ∧
    ∀ i : ℕ, i < 30 →
      (create_sample_data.getD i default).date = sample_epoch + (i : ℤ) ∧
      (create_sample_data.getD i default).visitors
        = 1500 + (i : ℤ) * 50 + ((i % 7 : ℕ) : ℤ) * 200 ∧
      (create_sample_data.getD i default).orders
        = 150 + (i : ℤ) * 5 + ((i % 7 : ℕ) : ℤ) * 20 ∧
      (create_sample_data.getD i default).revenue
        = ((15000 + (i : ℤ) * 500 + ((i % 7 : ℕ) : ℤ) * 2000 : ℤ) : ℚ) ∧
      (create_sample_data.getD i default).segment
        = (if i % 2 = 0 then "Mobile" else "Desktop") :=
  ⟨rfl, by decide, by decide⟩

/-- Witness for C8 at row index 9. -/
theorem create_sample_data_witness :
    (9 : ℕ) < 30 ∧
    (create_sample_data.getD 9 default).visitors
      = 1500 + (9 : ℤ) * 50 + ((9 % 7 : ℕ) : ℤ) * 200 :=
  ⟨by decide, (create_sample_data_spec.2.2 9 (by decide)).2.1⟩

/-- C9: the grouped visitor sums of the segment-analysis table partition the
KPI total — summing the visitors column over all rows of `segment_summary`
gives exactly `total_visitors` of the same view. -/
theorem segment_visitors_partition_spec (v : List Record) :
    ((segment_summary v).map SegmentRow.visitors).sum = total_visitors v := by
  have h1 : (segment_summary v).map SegmentRow.visitors
      = (segment_keys v).map (fun k => seg_visitors v k) := by
    rw [segment_summary, List.map_map]
    rfl
  rw [h1, total_visitors]
  exact sum_grouped_eq_sum Record.visitors (segment_keys v) v
    (List.nodup_dedup _)
    (fun r hr => List.mem_dedup.2 (List.mem_map_of_mem Record.segment hr))

/-- C10 counterexample: not every filtered subset of the sample data has
conversion rate 10% — the empty filtered subset (empty segment selection)
has conversion rate 0 by the zero-guard. -/
theorem sample_rate_not_ten_counterexample :
    conversion_rate (filtered_df create_sample_data ⟨sample_epoch, sample_epoch + 29, []⟩) ≠ 10 := by
  decide

/-- C10 amended: every sample row satisfies `Visitors = 10 * Orders` and
`Revenue = 10 * Visitors` (hence `Orders ≤ Visitors`), and every nonempty
filtered subset of the sample data has conversion rate exactly 10. -/
theorem sample_tenfold_ratio_spec :
    (∀ r ∈ create_sample_data,
      r.visitors = 10 * r.orders ∧ r.revenue = ((10 * r.visitors : ℤ) : ℚ) ∧
      r.orders ≤ r.visitors) ∧
    (∀ F : FilterSpec, filtered_df create_sample_data F ≠ [] →
      conversion_rate (filtered_df create_sample_data F) = 10) := by
  constructor
  · intro r hr
    exact ⟨(sample_rows_fact r hr).1, (sample_rows_fact r hr).2.1,
      (sample_rows_fact r hr).2.2.1⟩
  · intro F hne
    set v := filtered_df create_sample_data F with hv
    have hsub : ∀ r ∈ v, r ∈ create_sample_data :=
      fun r hr => (List.filter_sublist _).subset hr
    have h10 : total_visitors v = 10 * total_orders v := by
      rw [total_visitors, total_orders,
        List.map_congr_left (fun r hr => (sample_rows_fact r (hsub r hr)).1),
        ← List.sum_map_mul_left]
    have hpos : 0 < total_visitors v := by
      rw [total_visitors]
      refine List.sum_pos _ ?_ ?_
      · intro x hx
        obtain ⟨r, hr, rfl⟩ := List.mem_map.1 hx
        exact (sample_rows_fact r (hsub r hr)).2.2.2
      · intro hmap
        exact hne (List.map_eq_nil_iff.1 hmap)
    have hto : 0 < total_orders v := by
      rw [h10] at hpos
      linarith
    have hq : (total_orders v : ℚ) ≠ 0 := Int.cast_ne_zero.2 hto.ne'
    rw [conversion_rate, if_pos hpos, h10]
    push_cast
    field_simp
    ring

/-- Witness for the amended C10 on the first sample row and on the full-range
filter over both segments. -/
theorem sample_tenfold_ratio_witness :
    (create_sample_data.getD 0 default ∈ create_sample_data ∧
      (create_sample_data.getD 0 default).visitors
        = 10 * (create_sample_data.getD 0 default).orders) ∧
    (filtered_df create_sample_data ⟨sample_epoch, sample_epoch + 29, ["Mobile", "Desktop"]⟩ ≠ [] ∧
      conversion_rate
        (filtered_df create_sample_data ⟨sample_epoch, sample_epoch + 29, ["Mobile", "Desktop"]⟩)
        = 10) :=
  ⟨⟨by decide,
    (sample_tenfold_ratio_spec.1 (create_sample_data.getD 0 default) (by decide)).1⟩,
   ⟨by decide,
    sample_tenfold_ratio_spec.2 ⟨sample_epoch, sample_epoch + 29, ["Mobile", "Desktop"]⟩
      (by decide)⟩⟩

end QuickShop
